import Mathlib

/-!
Shallow embedding of the waterrocketpy simulation core, namely
`waterrocketpy/core/physics_engine.py` and `waterrocketpy/core/simulation.py`.
Machine floats are modelled as real numbers; the scipy ODE solver is an
abstract parameter of the orchestrator, constrained only where a claim
needs its documented behaviour.
-/

/- ## Physical constants (`waterrocketpy/core/constants.py`) -/

/-- Modelled from the spec: `constants.py` is not among the provided sources.
Density of water, kg per cubic metre. -/
noncomputable def WATER_DENSITY : ℝ := 1000

/-- Modelled from the spec: `constants.py` is not among the provided sources.
Atmospheric pressure in Pa (the spec's example uses `P0 = 10 * 101325 Pa`). -/
noncomputable def ATMOSPHERIC_PRESSURE : ℝ := 101325

/-- Modelled from the spec: `constants.py` is not among the provided sources.
Initial (ambient) temperature in K. -/
noncomputable def INITIAL_TEMPERATURE : ℝ := 300

/-- Modelled from the spec: `constants.py` is not among the provided sources.
Adiabatic index of air. -/
noncomputable def ADIABATIC_INDEX_AIR : ℝ := 1.4

/-- Modelled from the spec: `constants.py` is not among the provided sources.
Standard gravity, m per second squared. -/
noncomputable def GRAVITY : ℝ := 9.81

/-- Modelled from the spec: `constants.py` is not among the provided sources.
Sea-level air density, kg per cubic metre. -/
noncomputable def AIR_DENSITY_SL : ℝ := 1.225

/-- Modelled from the spec: `constants.py` is not among the provided sources.
Specific gas constant of air used by the ideal-gas relation `P V = m R T`. -/
noncomputable def AIR_GAS_CONSTANT : ℝ := 287.05

/-- Modelled from the spec: default integration horizon in seconds. -/
noncomputable def DEFAULT_MAX_TIME : ℝ := 10

/-- Modelled from the spec: default upper bound on the solver step, seconds. -/
noncomputable def DEFAULT_TIME_STEP : ℝ := 0.01

/-- Modelled from the spec: default solver name (an adaptive Runge-Kutta). -/
def DEFAULT_SOLVER : String := "RK45"

/- ## PhysicsEngine (`waterrocketpy/core/physics_engine.py`) -/

/-- Configuration constants of `PhysicsEngine.__init__`. -/
structure PhysicsEngine where
  gravity : ℝ
  air_density : ℝ

/-- Engine built with the default constructor arguments. -/
noncomputable def engDefault : PhysicsEngine := ⟨GRAVITY, AIR_DENSITY_SL⟩

/-- `PhysicsEngine.calculate_thrust`: returns
`(thrust_force, exit_velocity, mass_flow_rate)`. -/
noncomputable def calculate_thrust (pressure nozzle_area discharge_coefficient : ℝ) :
    ℝ × ℝ × ℝ :=
  let pressure_diff := max (pressure - ATMOSPHERIC_PRESSURE) 0
  let exit_velocity := discharge_coefficient * Real.sqrt (2 * pressure_diff / WATER_DENSITY)
  let mass_flow_rate := WATER_DENSITY * nozzle_area * exit_velocity
  let thrust_force := mass_flow_rate * exit_velocity
  (thrust_force, exit_velocity, mass_flow_rate)

/-- `PhysicsEngine.calculate_drag`. -/
noncomputable def calculate_drag (eng : PhysicsEngine)
    (velocity drag_coefficient cross_sectional_area : ℝ) : ℝ :=
  0.5 * eng.air_density * velocity ^ 2 * drag_coefficient * cross_sectional_area
    * Real.sign velocity

/-- `PhysicsEngine.calculate_pressure_adiabatic`. -/
noncomputable def calculate_pressure_adiabatic
    (initial_pressure initial_volume current_volume : ℝ) : ℝ :=
  if current_volume ≤ 0 then initial_pressure
  else initial_pressure * (initial_volume / current_volume) ^ ADIABATIC_INDEX_AIR

/-- `PhysicsEngine.calculate_temperature_adiabatic`. -/
noncomputable def calculate_temperature_adiabatic
    (initial_temperature initial_pressure current_pressure : ℝ) : ℝ :=
  initial_temperature *
    (current_pressure / initial_pressure) ^ ((ADIABATIC_INDEX_AIR - 1) / ADIABATIC_INDEX_AIR)

/-- `PhysicsEngine.calculate_air_volume`. -/
noncomputable def calculate_air_volume (bottle_volume water_mass : ℝ) : ℝ :=
  let water_volume := water_mass / WATER_DENSITY
  let air_volume := bottle_volume - water_volume
  max air_volume 1e-10

/-- `PhysicsEngine.calculate_net_force`: returns `(net_force, acceleration)`. -/
noncomputable def calculate_net_force (eng : PhysicsEngine) (thrust drag mass : ℝ) : ℝ × ℝ :=
  let net_force := thrust - drag
  let acceleration := net_force / mass - eng.gravity
  (net_force, acceleration)

/-- Modelled from the spec: `calculate_air_mass_from_conditions` is referenced by
`simulation.py` but its definition is not among the provided sources; per the
spec it applies the ideal-gas relation `P V = m R T`, solved for the mass. -/
noncomputable def calculate_air_mass_from_conditions (pressure temperature volume : ℝ) : ℝ :=
  pressure * volume / (AIR_GAS_CONSTANT * temperature)

/-- Modelled from the spec: `calculate_air_thrust` is referenced by
`simulation.py` but its definition is not among the provided sources; per the
spec it computes efflux thrust analogously to the water case using the gas's
effective exit velocity, with the gas density from the ideal-gas relation.
Returns `(thrust_force, exit_velocity, mass_flow_rate)`. -/
noncomputable def calculate_air_thrust
    (pressure temperature nozzle_area discharge_coefficient : ℝ) : ℝ × ℝ × ℝ :=
  let gas_density := pressure / (AIR_GAS_CONSTANT * temperature)
  let pressure_diff := max (pressure - ATMOSPHERIC_PRESSURE) 0
  let exit_velocity := discharge_coefficient * Real.sqrt (2 * pressure_diff / gas_density)
  let mass_flow_rate := gas_density * nozzle_area * exit_velocity
  let thrust_force := mass_flow_rate * exit_velocity
  (thrust_force, exit_velocity, mass_flow_rate)

/- ## Simulation data model (`waterrocketpy/core/simulation.py`) -/

/-- Rocket parameter record: the keys that `simulation.py` reads from the
`rocket_params` mapping; `liquid_gas_mass` is optional, mirroring
`rocket_params.get` with default `0.0`. -/
structure RocketParams where
  V_bottle : ℝ
  water_fraction : ℝ
  P0 : ℝ
  A_nozzle : ℝ
  C_d : ℝ
  m_empty : ℝ
  C_drag : ℝ
  A_rocket : ℝ
  liquid_gas_mass : Option ℝ

/-- Simulation settings mapping; absent keys fall back to the defaults. -/
structure SimParams where
  max_time : Option ℝ
  time_step : Option ℝ
  solver : Option String

/-- One `(t, pressure, temperature, thrust, drag)` sample appended by
`_store_derived_quantities` at each derivative evaluation. -/
structure DerivedSample where
  t : ℝ
  pressure : ℝ
  temperature : ℝ
  thrust : ℝ
  drag : ℝ

/-- Result of one `solve_ivp` call: times, channel-major state trajectory
(`y.getD i []` is channel `i`, one value per time point), the times of the
first event (`t_events[0]`), and the derived samples appended by the
derivative evaluations made during this solve. -/
structure IVPSolution where
  t : List ℝ
  y : List (List ℝ)
  tEvents : List ℝ
  samples : List DerivedSample

/-- Derivative function as instrumented by the simulator: each evaluation
returns the state derivative together with the derived sample it stores. -/
abbrev OdeFunc : Type := ℝ → List ℝ → List ℝ × DerivedSample

/-- Event function `g(t, state)`. -/
abbrev EventFunc : Type := ℝ → List ℝ → ℝ

/-- Abstract numerical solver standing for `scipy.integrate.solve_ivp`;
arguments: derivative function, time span, initial state, optional terminal
event, `max_step`, method name, `rtol`, `atol`. -/
abbrev Solver : Type :=
  OdeFunc → ℝ × ℝ → List ℝ → Option EventFunc → ℝ → String → ℝ → ℝ → IVPSolution

/-- Container mirroring the `FlightData` dataclass. -/
structure FlightData where
  time : List ℝ
  altitude : List ℝ
  velocity : List ℝ
  acceleration : List ℝ
  water_mass : List ℝ
  liquid_gas_mass : List ℝ
  air_mass : List ℝ
  pressure : List ℝ
  temperature : List ℝ
  thrust : List ℝ
  drag : List ℝ
  max_altitude : ℝ
  max_velocity : ℝ
  flight_time : ℝ
  water_depletion_time : ℝ
  air_depletion_time : ℝ

/- ## Derivative and event functions -/

/-- `WaterRocketSimulator._rocket_ode_water_phase`: state
`[altitude, velocity, water_mass, liquid_gas_mass]`; returns the derivative
`[velocity, acceleration, dm_water, dm_liquid_gas]` together with the derived
sample stored during the evaluation.  The first component of the auxiliary
triple is the pressure, the second the temperature, the third the liquid-gas
mass derivative. -/
noncomputable def rocket_ode_water_phase (eng : PhysicsEngine) (params : RocketParams)
    (t : ℝ) (state : List ℝ) : List ℝ × DerivedSample :=
  let velocity := state.getD 1 0
  let water_mass := state.getD 2 0
  let liquid_gas_mass := state.getD 3 0
  let air_volume := calculate_air_volume params.V_bottle water_mass
  let ptd : ℝ × ℝ × ℝ :=
    if 0 < water_mass ∧ 0 < liquid_gas_mass then
      (1000000, INITIAL_TEMPERATURE, 0)
    else if 0 < water_mass then
      let initial_air_volume := params.V_bottle * (1 - params.water_fraction)
      let pressure := calculate_pressure_adiabatic params.P0 initial_air_volume air_volume
      (pressure, calculate_temperature_adiabatic INITIAL_TEMPERATURE params.P0 pressure, 0)
    else
      (ATMOSPHERIC_PRESSURE, INITIAL_TEMPERATURE, 0)
  let tm : ℝ × ℝ :=
    if 0 < water_mass then
      let r := calculate_thrust ptd.1 params.A_nozzle params.C_d
      (r.1, -r.2.2)
    else (0, 0)
  let drag := calculate_drag eng velocity params.C_drag params.A_rocket
  let total_mass := params.m_empty + water_mass
  let acceleration := (calculate_net_force eng tm.1 drag total_mass).2
  ([velocity, acceleration, tm.2, ptd.2.2], ⟨t, ptd.1, ptd.2.1, tm.1, drag⟩)

/-- `WaterRocketSimulator._rocket_ode_air_phase`: state
`[altitude, velocity, air_mass, temperature]`.  The auxiliary triple holds the
thrust, the air-mass derivative and the temperature derivative. -/
noncomputable def rocket_ode_air_phase (eng : PhysicsEngine) (params : RocketParams)
    (t : ℝ) (state : List ℝ) : List ℝ × DerivedSample :=
  let velocity := state.getD 1 0
  let air_mass := state.getD 2 0
  let temperature := state.getD 3 0
  if air_mass ≤ 0 then
    ([velocity, -eng.gravity, 0, 0], ⟨t, ATMOSPHERIC_PRESSURE, temperature, 0, 0⟩)
  else
    let air_volume := params.V_bottle
    let pressure := max (air_mass * AIR_GAS_CONSTANT * temperature / air_volume)
      ATMOSPHERIC_PRESSURE
    let tmd : ℝ × ℝ × ℝ :=
      if ATMOSPHERIC_PRESSURE < pressure then
        let r := calculate_air_thrust pressure temperature params.A_nozzle params.C_d
        let dm_dt_air := -r.2.2
        let dV_dt := dm_dt_air * AIR_GAS_CONSTANT * temperature / pressure
        let dT_dt := -temperature * (ADIABATIC_INDEX_AIR - 1) / air_volume * dV_dt
        (r.1, dm_dt_air, dT_dt)
      else (0, 0, 0)
    let drag := calculate_drag eng velocity params.C_drag params.A_rocket
    let total_mass := params.m_empty + air_mass
    let acceleration := (calculate_net_force eng tmd.1 drag total_mass).2
    ([velocity, acceleration, tmd.2.1, tmd.2.2], ⟨t, pressure, temperature, tmd.1, drag⟩)

/-- `WaterRocketSimulator._rocket_ode_coasting_phase`: state `[altitude, velocity]`. -/
noncomputable def rocket_ode_coasting_phase (eng : PhysicsEngine) (params : RocketParams)
    (t : ℝ) (state : List ℝ) : List ℝ × DerivedSample :=
  let velocity := state.getD 1 0
  let drag := calculate_drag eng velocity params.C_drag params.A_rocket
  let total_mass := params.m_empty
  let acceleration := (calculate_net_force eng 0 drag total_mass).2
  ([velocity, acceleration], ⟨t, ATMOSPHERIC_PRESSURE, INITIAL_TEMPERATURE, 0, drag⟩)

/-- `WaterRocketSimulator._water_depletion_event`: the water-mass channel. -/
noncomputable def water_depletion_event : EventFunc := fun _ state => state.getD 2 0

/-- `WaterRocketSimulator._air_depletion_event`. -/
noncomputable def air_depletion_event (params : RocketParams) : EventFunc := fun _ state =>
  if state.length < 4 then 1
  else
    let air_mass := state.getD 2 0
    let temperature := state.getD 3 0
    if air_mass ≤ 0 then 0
    else air_mass * AIR_GAS_CONSTANT * temperature / params.V_bottle - ATMOSPHERIC_PRESSURE

/- ## Numerical post-processing helpers -/

/-- Maximum of a nonempty list, as `np.max`; 0 on the empty list, where numpy
raises instead. -/
noncomputable def npMax : List ℝ → ℝ
  | [] => 0
  | x :: xs => xs.foldl max x

/-- Piecewise-linear interpolation through the points `pts`, assumed sorted by
abscissa, extrapolating with the first and last segment outside the range;
models `scipy.interpolate.interp1d` with `kind='linear'` and
`fill_value='extrapolate'`. -/
noncomputable def interpSegs (x : ℝ) : List (ℝ × ℝ) → ℝ
  | [] => 0
  | [(_, y0)] => y0
  | (x0, y0) :: (x1, y1) :: rest =>
    if x ≤ x1 ∨ rest = [] then y0 + (y1 - y0) * (x - x0) / (x1 - x0)
    else interpSegs x ((x1, y1) :: rest)

/-- Linear interpolant of the samples `ys` at abscissae `xs`, evaluated at `x`. -/
noncomputable def interp1 (xs ys : List ℝ) (x : ℝ) : ℝ := interpSegs x (xs.zip ys)

/-- Numerical gradient `np.gradient(ys, xs)`: one-sided first-order differences
at the boundary, weighted second-order central differences in the interior. -/
noncomputable def npGradient (ys xs : List ℝ) : List ℝ :=
  (List.range ys.length).map fun i =>
    let n := ys.length
    if n ≤ 1 then 0
    else if i = 0 then (ys.getD 1 0 - ys.getD 0 0) / (xs.getD 1 0 - xs.getD 0 0)
    else if i = n - 1 then
      (ys.getD i 0 - ys.getD (i - 1) 0) / (xs.getD i 0 - xs.getD (i - 1) 0)
    else
      let hs := xs.getD i 0 - xs.getD (i - 1) 0
      let hd := xs.getD (i + 1) 0 - xs.getD i 0
      (hs ^ 2 * ys.getD (i + 1) 0 + (hd ^ 2 - hs ^ 2) * ys.getD i 0
          - hd ^ 2 * ys.getD (i - 1) 0) / (hs * hd * (hd + hs))

/- ## The `simulate` orchestrator -/

/-- Initial state of the water phase, `simulate` phase 1:
`[0, 0, WATER_DENSITY * V_bottle * water_fraction, liquid_gas_mass or 0]`. -/
noncomputable def initialStateWater (p : RocketParams) : List ℝ :=
  [0, 0, WATER_DENSITY * (p.V_bottle * p.water_fraction), p.liquid_gas_mass.getD 0]

/-- The `solve_ivp` call of the water phase. -/
noncomputable def waterSolution (solve : Solver) (eng : PhysicsEngine) (p : RocketParams)
    (maxTime timeStep : ℝ) (method : String) : IVPSolution :=
  solve (rocket_ode_water_phase eng p) (0, maxTime) (initialStateWater p)
    (some water_depletion_event) timeStep method 1e-8 1e-10

/-- Initial state of the air phase, built from the final water-phase state and
the adiabatic conditions evaluated at the full bottle volume. -/
noncomputable def airInitialState (p : RocketParams) (solW : IVPSolution) : List ℝ :=
  let final_state_water := solW.y.map (fun ch => ch.getLastD 0)
  let initial_air_volume := p.V_bottle * (1 - p.water_fraction)
  let pressure_at_transition :=
    calculate_pressure_adiabatic p.P0 initial_air_volume p.V_bottle
  let temperature_at_transition :=
    calculate_temperature_adiabatic INITIAL_TEMPERATURE p.P0 pressure_at_transition
  let air_mass_at_transition :=
    calculate_air_mass_from_conditions pressure_at_transition temperature_at_transition
      p.V_bottle
  [final_state_water.getD 0 0, final_state_water.getD 1 0, air_mass_at_transition,
    temperature_at_transition]

/-- The `solve_ivp` call of the air phase. -/
noncomputable def airSolution (solve : Solver) (eng : PhysicsEngine) (p : RocketParams)
    (maxTime timeStep : ℝ) (method : String) (tw : ℝ) (init : List ℝ) : IVPSolution :=
  solve (rocket_ode_air_phase eng p) (tw, maxTime) init (some (air_depletion_event p))
    timeStep method 1e-8 1e-10

/-- The `solve_ivp` call of the coasting phase, which has no terminal event. -/
noncomputable def coastingSolution (solve : Solver) (eng : PhysicsEngine) (p : RocketParams)
    (maxTime timeStep : ℝ) (method : String) (ta : ℝ) (init : List ℝ) : IVPSolution :=
  solve (rocket_ode_coasting_phase eng p) (ta, maxTime) init none timeStep method 1e-8 1e-10

/-- Per-phase segments accumulated by `simulate` before concatenation, together
with the depletion times and the derived-sample buffer contents. -/
structure PhaseAcc where
  segTimes : List (List ℝ)
  segAlts : List (List ℝ)
  segVels : List (List ℝ)
  segWaters : List (List ℝ)
  segLgs : List (List ℝ)
  segAirs : List (List ℝ)
  wdt : ℝ
  adt : ℝ
  buf : List DerivedSample

/-- Phase state machine of `simulate`: run the water phase; if its terminal
event fired, run the air phase from the transition state; if that event fired
too, run the coasting phase.  The depletion times stay `0.0` when the
corresponding event never fired. -/
noncomputable def collectPhases (solve : Solver) (eng : PhysicsEngine) (p : RocketParams)
    (maxTime timeStep : ℝ) (method : String) : PhaseAcc :=
  let solW := waterSolution solve eng p maxTime timeStep method
  let initial_air_volume := p.V_bottle * (1 - p.water_fraction)
  let initial_air_mass :=
    calculate_air_mass_from_conditions p.P0 INITIAL_TEMPERATURE initial_air_volume
  let airW := solW.t.map (fun _ => initial_air_mass)
  match solW.tEvents with
  | [] =>
    ⟨[solW.t], [solW.y.getD 0 []], [solW.y.getD 1 []], [solW.y.getD 2 []],
      [solW.y.getD 3 []], [airW], 0, 0, solW.samples⟩
  | tw :: _ =>
    let solA := airSolution solve eng p maxTime timeStep method tw (airInitialState p solW)
    let zerosA := solA.t.map (fun _ => (0:ℝ))
    match solA.tEvents with
    | [] =>
      ⟨[solW.t, solA.t], [solW.y.getD 0 [], solA.y.getD 0 []],
        [solW.y.getD 1 [], solA.y.getD 1 []], [solW.y.getD 2 [], zerosA],
        [solW.y.getD 3 [], zerosA], [airW, solA.y.getD 2 []], tw, 0,
        solW.samples ++ solA.samples⟩
    | ta :: _ =>
      let final_state_air := solA.y.map (fun ch => ch.getLastD 0)
      let solC := coastingSolution solve eng p maxTime timeStep method ta
        [final_state_air.getD 0 0, final_state_air.getD 1 0]
      let zerosC := solC.t.map (fun _ => (0:ℝ))
      ⟨[solW.t, solA.t, solC.t],
        [solW.y.getD 0 [], solA.y.getD 0 [], solC.y.getD 0 []],
        [solW.y.getD 1 [], solA.y.getD 1 [], solC.y.getD 1 []],
        [solW.y.getD 2 [], zerosA, zerosC],
        [solW.y.getD 3 [], zerosA, zerosC],
        [airW, solA.y.getD 2 [], zerosC], tw, ta,
        solW.samples ++ solA.samples ++ solC.samples⟩

/-- Post-processing of `simulate`: concatenate the phase segments, resample the
derived quantities onto the combined grid, differentiate velocity, and take the
scalar summaries as reductions of the assembled sequences themselves. -/
noncomputable def assembleFlightData (acc : PhaseAcc) : FlightData :=
  let time := acc.segTimes.flatten
  let altitude := acc.segAlts.flatten
  let velocity := acc.segVels.flatten
  let derived_time := acc.buf.map (fun s => s.t)
  { time := time
    altitude := altitude
    velocity := velocity
    acceleration := npGradient velocity time
    water_mass := acc.segWaters.flatten
    liquid_gas_mass := acc.segLgs.flatten
    air_mass := acc.segAirs.flatten
    pressure := time.map (interp1 derived_time (acc.buf.map (fun s => s.pressure)))
    temperature := time.map (interp1 derived_time (acc.buf.map (fun s => s.temperature)))
    thrust := time.map (interp1 derived_time (acc.buf.map (fun s => s.thrust)))
    drag := time.map (interp1 derived_time (acc.buf.map (fun s => s.drag)))
    max_altitude := npMax altitude
    max_velocity := npMax velocity
    flight_time := time.getLastD 0
    water_depletion_time := acc.wdt
    air_depletion_time := acc.adt }

/-- `WaterRocketSimulator.simulate`: validate (advisorily), reset the
derived-sample buffer — the incoming buffer `buf0` is discarded — run the phase
state machine, and assemble the `FlightData`.  Returns the flight data, the
final contents of the simulator's derived-sample buffer, and the printed
warnings line, `none` when no warnings were printed. -/
noncomputable def simulate (solve : Solver) (validate : RocketParams → List String)
    (eng : PhysicsEngine) (rocket_params : RocketParams) (sim_params : Option SimParams)
    (buf0 : List DerivedSample) :
    FlightData × List DerivedSample × Option (List String) :=
  let warnings := validate rocket_params
  let printed : Option (List String) := if warnings = [] then none else some warnings
  let sp := sim_params.getD ⟨none, none, none⟩
  let max_time := sp.max_time.getD DEFAULT_MAX_TIME
  let time_step := sp.time_step.getD DEFAULT_TIME_STEP
  let method := sp.solver.getD DEFAULT_SOLVER
  let acc := collectPhases solve eng rocket_params max_time time_step method
  (assembleFlightData acc, acc.buf, printed)

/- ## Solver contracts and concrete fixtures -/

/-- Behaviour of one `solve_ivp` result that the claims rely on: the reported
times are non-decreasing and start at the span start; at least two time points
are produced; the state trajectory has one channel per state dimension, each as
long as `t`; and when a terminal event is reported, integration stopped there,
so the event time is the last reported time. -/
structure SolOk (t0 : ℝ) (dim : ℕ) (s : IVPSolution) : Prop where
  chain : List.Chain' (· ≤ ·) s.t
  headEq : s.t.head? = some t0
  twoLe : 2 ≤ s.t.length
  ydim : s.y.length = dim
  ylen : ∀ ch ∈ s.y, ch.length = s.t.length
  eventLast : ∀ te ∈ s.tEvents.head?, s.t.getLast? = some te

/-- The abstract solver satisfies `SolOk` on every call. -/
def SolverOk (solve : Solver) : Prop :=
  ∀ f span y0 ev ms method rt atol,
    SolOk span.1 y0.length (solve f span y0 ev ms method rt atol)

/-- Documented `solve_ivp` event semantics needed for claim C6: a terminal
event whose function is already zero at the initial point, with the negative
crossing direction used by the simulator, fires immediately at the span
start. -/
def EventImmediate (solve : Solver) : Prop :=
  ∀ f span y0 g ms method rt atol, g span.1 y0 = 0 →
    (solve f span y0 (some g) ms method rt atol).tEvents.head? = some span.1

/-- Concrete solver used by witnesses: two time points at the span start, each
state channel constant, the event reported at the span start, no samples. -/
noncomputable def wsol : Solver := fun _ span y0 _ _ _ _ _ =>
  ⟨[span.1, span.1], y0.map (fun v => [v, v]), [span.1], []⟩

/-- Concrete solver used by witnesses, with an event that never fires. -/
noncomputable def wsolNoEvent : Solver := fun _ span y0 _ _ _ _ _ =>
  ⟨[span.1, span.1], y0.map (fun v => [v, v]), [], []⟩

/-- Concrete parameter record used by witnesses and counterexamples. -/
noncomputable def pEx : RocketParams := ⟨1, 0.5, 1000000, 0.0001, 0.8, 1, 1, 1, none⟩

/-- Concrete parameter record with zero water fraction. -/
noncomputable def pExZeroWater : RocketParams := ⟨1, 0, 202650, 0.0001, 0.8, 1, 1, 1, none⟩

/- ## Theorems for claim C1 -/

/-- C1 counterexample: as literally stated the claim quantifies over every
`nozzle_area`; with a negative nozzle area and `pressure > ATMOSPHERIC_PRESSURE`
the returned force is negative, so `force ≥ 0` fails. -/
theorem calculate_thrust_neg_area_counterexample :
    ATMOSPHERIC_PRESSURE < ATMOSPHERIC_PRESSURE + 1 ∧
      (calculate_thrust (ATMOSPHERIC_PRESSURE + 1) (-1) 1).1 < 0 := by
  constructor
  · linarith
  · show WATER_DENSITY * (-1) *
        (1 * Real.sqrt (2 * max (ATMOSPHERIC_PRESSURE + 1 - ATMOSPHERIC_PRESSURE) 0
          / WATER_DENSITY)) *
        (1 * Real.sqrt (2 * max (ATMOSPHERIC_PRESSURE + 1 - ATMOSPHERIC_PRESSURE) 0
          / WATER_DENSITY)) < 0
    have h1 : max (ATMOSPHERIC_PRESSURE + 1 - ATMOSPHERIC_PRESSURE) 0 = 1 := by
      rw [show ATMOSPHERIC_PRESSURE + 1 - ATMOSPHERIC_PRESSURE = 1 by ring]
      exact max_eq_left (by norm_num)
    rw [h1]
    have h2 : (0:ℝ) ≤ 2 * 1 / WATER_DENSITY := by
      rw [WATER_DENSITY]; norm_num
    have h3 : Real.sqrt (2 * 1 / WATER_DENSITY) * Real.sqrt (2 * 1 / WATER_DENSITY)
        = 2 * 1 / WATER_DENSITY := Real.mul_self_sqrt h2
    have h4 : (0:ℝ) < 2 * 1 / WATER_DENSITY := by
      rw [WATER_DENSITY]; norm_num
    have hw : (0:ℝ) < WATER_DENSITY := by rw [WATER_DENSITY]; norm_num
    nlinarith [h3, h4, hw]

/-- C1 (amended): `calculate_thrust` returns the Torricelli triple
`(force, exit_velocity, mass_flow_rate)` with
`exit_velocity = C_d * sqrt(2 * max(pressure - P_atm, 0) / rho_water)`,
`mass_flow_rate = rho_water * nozzle_area * exit_velocity` and
`force = mass_flow_rate * exit_velocity`; it returns the zero triple whenever
`pressure ≤ ATMOSPHERIC_PRESSURE`, and the force is nonnegative whenever
`pressure > ATMOSPHERIC_PRESSURE` and the nozzle area is nonnegative. -/
theorem calculate_thrust_spec (pressure nozzle_area discharge_coefficient : ℝ) :
    ((calculate_thrust pressure nozzle_area discharge_coefficient).2.1 =
        discharge_coefficient *
          Real.sqrt (2 * max (pressure - ATMOSPHERIC_PRESSURE) 0 / WATER_DENSITY) ∧
      (calculate_thrust pressure nozzle_area discharge_coefficient).2.2 =
        WATER_DENSITY * nozzle_area *
          (calculate_thrust pressure nozzle_area discharge_coefficient).2.1 ∧
      (calculate_thrust pressure nozzle_area discharge_coefficient).1 =
        (calculate_thrust pressure nozzle_area discharge_coefficient).2.2 *
          (calculate_thrust pressure nozzle_area discharge_coefficient).2.1) ∧
    (pressure ≤ ATMOSPHERIC_PRESSURE →
      calculate_thrust pressure nozzle_area discharge_coefficient = (0, 0, 0)) ∧
    (ATMOSPHERIC_PRESSURE < pressure → 0 ≤ nozzle_area →
      0 ≤ (calculate_thrust pressure nozzle_area discharge_coefficient).1) := by
  refine ⟨⟨rfl, rfl, rfl⟩, ?_, ?_⟩
  · intro hle
    have hmax : max (pressure - ATMOSPHERIC_PRESSURE) 0 = 0 :=
      max_eq_right (by linarith)
    show (WATER_DENSITY * nozzle_area *
        (discharge_coefficient *
          Real.sqrt (2 * max (pressure - ATMOSPHERIC_PRESSURE) 0 / WATER_DENSITY)) *
        (discharge_coefficient *
          Real.sqrt (2 * max (pressure - ATMOSPHERIC_PRESSURE) 0 / WATER_DENSITY)),
      discharge_coefficient *
          Real.sqrt (2 * max (pressure - ATMOSPHERIC_PRESSURE) 0 / WATER_DENSITY),
      WATER_DENSITY * nozzle_area *
        (discharge_coefficient *
          Real.sqrt (2 * max (pressure - ATMOSPHERIC_PRESSURE) 0 / WATER_DENSITY)))
      = ((0 : ℝ), (0 : ℝ), (0 : ℝ))
    rw [hmax]
    norm_num
  · intro _ hA
    show 0 ≤ WATER_DENSITY * nozzle_area *
        (discharge_coefficient *
          Real.sqrt (2 * max (pressure - ATMOSPHERIC_PRESSURE) 0 / WATER_DENSITY)) *
        (discharge_coefficient *
          Real.sqrt (2 * max (pressure - ATMOSPHERIC_PRESSURE) 0 / WATER_DENSITY))
    have hw : (0:ℝ) ≤ WATER_DENSITY := by rw [WATER_DENSITY]; norm_num
    set v := discharge_coefficient *
      Real.sqrt (2 * max (pressure - ATMOSPHERIC_PRESSURE) 0 / WATER_DENSITY) with hv
    nlinarith [mul_self_nonneg v, mul_nonneg hw hA]

/-- C1 witness: the amended theorem applied at concrete inputs, discharging the
hypotheses of both implications. -/
theorem calculate_thrust_spec_witness :
    calculate_thrust ATMOSPHERIC_PRESSURE 1 1 = (0, 0, 0) ∧
      0 ≤ (calculate_thrust (ATMOSPHERIC_PRESSURE + 1) 1 1).1 :=
  ⟨(calculate_thrust_spec ATMOSPHERIC_PRESSURE 1 1).2.1 (le_refl _),
   (calculate_thrust_spec (ATMOSPHERIC_PRESSURE + 1) 1 1).2.2 (by linarith) (by norm_num)⟩

/- ## Theorems for claim C2 -/

/-- C2 counterexample: a state with positive liquid-gas mass but zero water
mass; the code requires BOTH `water_mass > 0` and `liquid_gas_mass > 0` for the
regulated 10-bar pressure, so here the computed pressure is atmospheric, not
10 bar. -/
theorem rocket_ode_water_phase_counterexample :
    (0:ℝ) < ([0, 0, 0, 1] : List ℝ).getD 3 0 ∧
      (rocket_ode_water_phase engDefault pEx 0 [0, 0, 0, 1]).2.pressure ≠ 1000000 := by
  constructor
  · simp [List.getD]
  · norm_num [rocket_ode_water_phase, List.getD, ATMOSPHERIC_PRESSURE]

/-- C2 (amended): in the water-phase derivative function, for every state with
`water_mass > 0` and `liquid_gas_mass > 0` the computed pressure equals the
fixed regulated value of 10 bar (`1000000 Pa`), the computed temperature equals
the initial temperature, and the liquid-gas mass derivative is zero. -/
theorem rocket_ode_water_phase_regulated (eng : PhysicsEngine) (p : RocketParams)
    (t : ℝ) (s : List ℝ) (hw : 0 < s.getD 2 0) (hg : 0 < s.getD 3 0) :
    (rocket_ode_water_phase eng p t s).2.pressure = 1000000 ∧
      (rocket_ode_water_phase eng p t s).2.temperature = INITIAL_TEMPERATURE ∧
      (rocket_ode_water_phase eng p t s).1.getD 3 0 = 0 := by
  simp only [rocket_ode_water_phase, hw, hg, and_self, if_true, if_pos]
  refine ⟨trivial, trivial, ?_⟩
  simp [List.getD]

/-- C2 witness: the amended theorem applied at a concrete state with positive
water and liquid-gas mass. -/
theorem rocket_ode_water_phase_regulated_witness :
    (rocket_ode_water_phase engDefault pEx 0 [0, 0, 1, 1]).2.pressure = 1000000 ∧
      (rocket_ode_water_phase engDefault pEx 0 [0, 0, 1, 1]).2.temperature =
        INITIAL_TEMPERATURE ∧
      (rocket_ode_water_phase engDefault pEx 0 [0, 0, 1, 1]).1.getD 3 0 = 0 :=
  rocket_ode_water_phase_regulated engDefault pEx 0 [0, 0, 1, 1]
    (by simp [List.getD]) (by simp [List.getD])

/- ## Theorems for claim C3 -/

/-- C3 counterexample: in a state with non-positive air mass and nonzero
velocity the air-phase derivative function returns the acceleration `-g`
exactly (no drag term), not `-drag/total_mass - g` as the claim asserts for
such states. -/
theorem rocket_ode_air_phase_counterexample :
    ([0, 10, 0, 300] : List ℝ).getD 2 0 ≤ 0 ∧
      (rocket_ode_air_phase engDefault pEx 0 [0, 10, 0, 300]).1.getD 1 0 ≠
        -(calculate_drag engDefault (([0, 10, 0, 300] : List ℝ).getD 1 0) pEx.C_drag
            pEx.A_rocket) / (pEx.m_empty + ([0, 10, 0, 300] : List ℝ).getD 2 0)
          - engDefault.gravity := by
  have hsign : Real.sign (10:ℝ) = 1 := Real.sign_of_pos (by norm_num)
  constructor
  · simp [List.getD]
  · simp only [rocket_ode_air_phase, calculate_drag, List.getD, engDefault, pEx]
    norm_num [hsign, GRAVITY, AIR_DENSITY_SL]

/-- C3 (amended): in the air-phase derivative function, thrust is zero in
every state whose computed pressure is not above atmospheric; for states with
positive air mass this gives the velocity derivative
`-drag/total_mass - g` with drag computed from the current velocity, while for
states with non-positive air mass the function returns early with the velocity
derivative `-g` (gravity only, drag not applied). -/
theorem rocket_ode_air_phase_no_thrust (eng : PhysicsEngine) (p : RocketParams)
    (t : ℝ) (s : List ℝ) :
    (s.getD 2 0 ≤ 0 →
      (rocket_ode_air_phase eng p t s).2.thrust = 0 ∧
      (rocket_ode_air_phase eng p t s).1.getD 1 0 = -eng.gravity) ∧
    (0 < s.getD 2 0 →
      s.getD 2 0 * AIR_GAS_CONSTANT * s.getD 3 0 / p.V_bottle ≤ ATMOSPHERIC_PRESSURE →
      (rocket_ode_air_phase eng p t s).2.thrust = 0 ∧
      (rocket_ode_air_phase eng p t s).1.getD 1 0 =
        -(calculate_drag eng (s.getD 1 0) p.C_drag p.A_rocket)
          / (p.m_empty + s.getD 2 0) - eng.gravity) := by
  constructor
  · intro hm
    simp only [rocket_ode_air_phase, if_pos hm]
    exact ⟨trivial, by simp [List.getD]⟩
  · intro hm hp
    simp only [rocket_ode_air_phase, if_neg (not_le.mpr hm)]
    have hmax : max (s.getD 2 0 * AIR_GAS_CONSTANT * s.getD 3 0 / p.V_bottle)
        ATMOSPHERIC_PRESSURE = ATMOSPHERIC_PRESSURE := max_eq_right hp
    rw [hmax, if_neg (lt_irrefl ATMOSPHERIC_PRESSURE)]
    constructor
    · rfl
    · simp only [calculate_net_force, List.getD_cons_succ, List.getD_cons_zero]
      rw [zero_sub, neg_div]

/-- C3 witness: the amended theorem applied at concrete states, one with
non-positive air mass and one with positive air mass at atmospheric
pressure. -/
theorem rocket_ode_air_phase_no_thrust_witness :
    ((rocket_ode_air_phase engDefault pEx 0 [0, 10, 0, 300]).2.thrust = 0 ∧
      (rocket_ode_air_phase engDefault pEx 0 [0, 10, 0, 300]).1.getD 1 0 =
        -engDefault.gravity) ∧
    ((rocket_ode_air_phase engDefault pEx 0 [0, 5, 1, 300]).2.thrust = 0 ∧
      (rocket_ode_air_phase engDefault pEx 0 [0, 5, 1, 300]).1.getD 1 0 =
        -(calculate_drag engDefault (([0, 5, 1, 300] : List ℝ).getD 1 0) pEx.C_drag
            pEx.A_rocket) / (pEx.m_empty + ([0, 5, 1, 300] : List ℝ).getD 2 0)
          - engDefault.gravity) :=
  ⟨(rocket_ode_air_phase_no_thrust engDefault pEx 0 [0, 10, 0, 300]).1
      (by simp [List.getD]),
   (rocket_ode_air_phase_no_thrust engDefault pEx 0 [0, 5, 1, 300]).2
      (by simp [List.getD])
      (by norm_num [List.getD, AIR_GAS_CONSTANT, ATMOSPHERIC_PRESSURE, pEx])⟩

/- ## Theorems for claim C7 -/

/-- C7: `simulate` with `liquid_gas_mass` explicitly set to 0 returns the same
`FlightData` as `simulate` with the field entirely absent, all other
parameters equal; the orchestrator reads the field only through `get` with
default `0.0`. -/
theorem simulate_liquid_gas_default (solve : Solver)
    (validate : RocketParams → List String) (eng : PhysicsEngine)
    (vb wf p0 an cd me cdrag ar : ℝ) (sp : Option SimParams)
    (buf0 : List DerivedSample) :
    (simulate solve validate eng ⟨vb, wf, p0, an, cd, me, cdrag, ar, some 0⟩ sp buf0).1 =
      (simulate solve validate eng ⟨vb, wf, p0, an, cd, me, cdrag, ar, none⟩ sp buf0).1 :=
  rfl

/- ## Theorems for claim C8 -/

/-- C8: parameter validation is advisory and never gates execution: the
warnings computed by the validator are surfaced (printed exactly when
non-empty), and the returned `FlightData` does not depend on the validator at
all — the full simulation runs regardless of how many warnings were
produced. -/
theorem simulate_validation_advisory (solve : Solver)
    (v1 v2 : RocketParams → List String) (eng : PhysicsEngine) (p : RocketParams)
    (sp : Option SimParams) (buf0 : List DerivedSample) :
    (simulate solve v1 eng p sp buf0).2.2 =
        (if v1 p = [] then none else some (v1 p)) ∧
      (simulate solve v1 eng p sp buf0).1 = (simulate solve v2 eng p sp buf0).1 :=
  ⟨rfl, rfl⟩

/- ## Theorems for claim C9 -/

/-- C9: `simulate` is deterministic with no hidden-state leakage across calls:
the derived-sample scratch buffer is reset at the start of every invocation, so
the result is independent of the incoming buffer contents, and a second call
made on the buffer left behind by a first call returns an identical
`FlightData`. -/
theorem simulate_no_state_leakage (solve : Solver)
    (validate : RocketParams → List String) (eng : PhysicsEngine) (p : RocketParams)
    (sp : Option SimParams) (buf1 buf2 : List DerivedSample) :
    (simulate solve validate eng p sp buf1).1 =
        (simulate solve validate eng p sp buf2).1 ∧
      (simulate solve validate eng p sp
          (simulate solve validate eng p sp buf1).2.1).1 =
        (simulate solve validate eng p sp buf1).1 :=
  ⟨rfl, rfl⟩

/- ## Helper lemmas about the list reductions -/

/-- Helper: the seed is below the maximum fold. -/
theorem le_foldl_max (xs : List ℝ) (a : ℝ) : a ≤ xs.foldl max a := by
  induction xs generalizing a with
  | nil => exact le_refl a
  | cons b xs ih => exact le_trans (le_max_left a b) (ih (max a b))

/-- Helper: every member is below the maximum fold. -/
theorem foldl_max_le_of_mem (xs : List ℝ) (a x : ℝ) (hx : x ∈ xs) :
    x ≤ xs.foldl max a := by
  induction xs generalizing a with
  | nil => cases hx
  | cons b xs ih =>
    rcases List.mem_cons.mp hx with h | h
    · subst h
      exact le_trans (le_max_right a x) (le_foldl_max xs (max a x))
    · exact ih (max a b) h

/-- Helper: the maximum fold is the seed or a member. -/
theorem foldl_max_mem (xs : List ℝ) (a : ℝ) :
    xs.foldl max a = a ∨ xs.foldl max a ∈ xs := by
  induction xs generalizing a with
  | nil => left; rfl
  | cons b xs ih =>
    rw [List.foldl_cons]
    rcases ih (max a b) with h | h
    · rcases max_cases a b with ⟨hm, _⟩ | ⟨hm, _⟩
      · left; rw [h, hm]
      · right; rw [h, hm]; exact List.mem_cons_self b xs
    · right; exact List.mem_cons_of_mem b h

/-- Helper: `npMax` of a nonempty list is a member of it. -/
theorem npMax_mem (l : List ℝ) (h : l ≠ []) : npMax l ∈ l := by
  cases l with
  | nil => exact absurd rfl h
  | cons x xs =>
    show xs.foldl max x ∈ x :: xs
    rcases foldl_max_mem xs x with h1 | h1
    · rw [h1]; exact List.mem_cons_self x xs
    · exact List.mem_cons_of_mem x h1

/-- Helper: `npMax` bounds every member from above. -/
theorem le_npMax (l : List ℝ) (x : ℝ) (hx : x ∈ l) : x ≤ npMax l := by
  cases l with
  | nil => cases hx
  | cons a xs =>
    show x ≤ xs.foldl max a
    rcases List.mem_cons.mp hx with h | h
    · subst h; exact le_foldl_max xs x
    · exact foldl_max_le_of_mem xs a x h

/-- Helper: on a nonempty list, `getLastD` is the last element. -/
theorem getLast?_eq_some_getLastD (l : List ℝ) (h : l ≠ []) :
    l.getLast? = some (l.getLastD 0) := by
  rw [List.getLastD_eq_getLast?]
  cases hl : l.getLast? with
  | none => exact absurd (List.getLast?_eq_none_iff.mp hl) h
  | some b => rfl

/- ## Theorems for claim C4 -/

/-- C4: the scalar summaries of the returned `FlightData` are exact reductions
over its own sequences: `max_altitude = npMax altitude`, where `npMax` on a
nonempty list is a member and an upper bound of all members (i.e. the maximum),
`max_velocity = npMax velocity` likewise, and `flight_time` is the last element
of `time`; they are not recomputed independently of the sequences. -/
theorem simulate_summaries_are_reductions (solve : Solver)
    (validate : RocketParams → List String) (eng : PhysicsEngine) (p : RocketParams)
    (sp : Option SimParams) (buf0 : List DerivedSample) :
    (simulate solve validate eng p sp buf0).1.max_altitude =
        npMax (simulate solve validate eng p sp buf0).1.altitude ∧
      (simulate solve validate eng p sp buf0).1.max_velocity =
        npMax (simulate solve validate eng p sp buf0).1.velocity ∧
      ((simulate solve validate eng p sp buf0).1.altitude ≠ [] →
        (simulate solve validate eng p sp buf0).1.max_altitude ∈
            (simulate solve validate eng p sp buf0).1.altitude ∧
          ∀ x ∈ (simulate solve validate eng p sp buf0).1.altitude,
            x ≤ (simulate solve validate eng p sp buf0).1.max_altitude) ∧
      ((simulate solve validate eng p sp buf0).1.velocity ≠ [] →
        (simulate solve validate eng p sp buf0).1.max_velocity ∈
            (simulate solve validate eng p sp buf0).1.velocity ∧
          ∀ x ∈ (simulate solve validate eng p sp buf0).1.velocity,
            x ≤ (simulate solve validate eng p sp buf0).1.max_velocity) ∧
      ((simulate solve validate eng p sp buf0).1.time ≠ [] →
        (simulate solve validate eng p sp buf0).1.time.getLast? =
          some (simulate solve validate eng p sp buf0).1.flight_time) := by
  have hma : (simulate solve validate eng p sp buf0).1.max_altitude =
      npMax (simulate solve validate eng p sp buf0).1.altitude := rfl
  have hmv : (simulate solve validate eng p sp buf0).1.max_velocity =
      npMax (simulate solve validate eng p sp buf0).1.velocity := rfl
  have hft : (simulate solve validate eng p sp buf0).1.flight_time =
      (simulate solve validate eng p sp buf0).1.time.getLastD 0 := rfl
  refine ⟨hma, hmv, ?_, ?_, ?_⟩
  · intro h
    rw [hma]
    exact ⟨npMax_mem _ h, fun x hx => le_npMax _ x hx⟩
  · intro h
    rw [hmv]
    exact ⟨npMax_mem _ h, fun x hx => le_npMax _ x hx⟩
  · intro h
    rw [hft]
    exact getLast?_eq_some_getLastD _ h

/-- C4 witness: the theorem applied with a concrete solver, parameter record
and settings, the nonemptiness hypotheses discharged by evaluation. -/
theorem simulate_summaries_are_reductions_witness :
    ((simulate wsolNoEvent (fun _ => []) engDefault pEx none []).1.max_altitude ∈
        (simulate wsolNoEvent (fun _ => []) engDefault pEx none []).1.altitude) ∧
      (simulate wsolNoEvent (fun _ => []) engDefault pEx none []).1.time.getLast? =
        some (simulate wsolNoEvent (fun _ => []) engDefault pEx none []).1.flight_time := by
  have h := simulate_summaries_are_reductions wsolNoEvent (fun _ => []) engDefault pEx
    none []
  refine ⟨(h.2.2.1 ?_).1, h.2.2.2.2 ?_⟩
  · simp [simulate, collectPhases, waterSolution, wsolNoEvent, initialStateWater,
      assembleFlightData]
  · simp [simulate, collectPhases, waterSolution, wsolNoEvent, initialStateWater,
      assembleFlightData]

/- ## Theorems for claim C10 -/

/-- C10: a depletion time of `0.0` is the sentinel for a phase transition that
never occurred: if the water-depletion event never fires the returned
`FlightData` reports `water_depletion_time = 0.0` (and `air_depletion_time =
0.0`, the air phase never having run); if water depletes at `tw` but the
air-depletion event never fires, `air_depletion_time = 0.0` while
`water_depletion_time = tw` — so for `tw = 0` the sentinel is indistinguishable
from a genuine depletion at `t = 0`. -/
theorem simulate_depletion_sentinel (solve : Solver)
    (validate : RocketParams → List String) (eng : PhysicsEngine) (p : RocketParams)
    (mt ts : ℝ) (method : String) (buf0 : List DerivedSample) :
    ((waterSolution solve eng p mt ts method).tEvents = [] →
      (simulate solve validate eng p (some ⟨some mt, some ts, some method⟩)
            buf0).1.water_depletion_time = 0 ∧
        (simulate solve validate eng p (some ⟨some mt, some ts, some method⟩)
            buf0).1.air_depletion_time = 0) ∧
    (∀ tw rest, (waterSolution solve eng p mt ts method).tEvents = tw :: rest →
      (airSolution solve eng p mt ts method tw
          (airInitialState p (waterSolution solve eng p mt ts method))).tEvents = [] →
      (simulate solve validate eng p (some ⟨some mt, some ts, some method⟩)
            buf0).1.water_depletion_time = tw ∧
        (simulate solve validate eng p (some ⟨some mt, some ts, some method⟩)
            buf0).1.air_depletion_time = 0) := by
  constructor
  · intro h
    constructor
    · show (assembleFlightData
          (collectPhases solve eng p mt ts method)).water_depletion_time = 0
      simp only [collectPhases, assembleFlightData, h]
    · show (assembleFlightData
          (collectPhases solve eng p mt ts method)).air_depletion_time = 0
      simp only [collectPhases, assembleFlightData, h]
  · intro tw rest hw ha
    constructor
    · show (assembleFlightData
          (collectPhases solve eng p mt ts method)).water_depletion_time = tw
      simp only [collectPhases, assembleFlightData, hw, ha]
    · show (assembleFlightData
          (collectPhases solve eng p mt ts method)).air_depletion_time = 0
      simp only [collectPhases, assembleFlightData, hw, ha]

/-- C10 witness: with a concrete solver whose events never fire, the returned
depletion times are both the sentinel `0.0`. -/
theorem simulate_depletion_sentinel_witness :
    (simulate wsolNoEvent (fun _ => []) engDefault pEx
          (some ⟨some 10, some 0.01, some "RK45"⟩) []).1.water_depletion_time = 0 ∧
      (simulate wsolNoEvent (fun _ => []) engDefault pEx
          (some ⟨some 10, some 0.01, some "RK45"⟩) []).1.air_depletion_time = 0 :=
  (simulate_depletion_sentinel wsolNoEvent (fun _ => []) engDefault pEx
    10 0.01 "RK45" []).1 rfl

/- ## Helper lemmas about ordered time grids, and the fixture solvers -/

/-- Helper: in a `≤`-pairwise list, every member is bounded by the last
element. -/
theorem le_getLast?_of_pairwise (l : List ℝ) (b : ℝ)
    (hp : List.Pairwise (· ≤ ·) l) (hb : l.getLast? = some b) :
    ∀ x ∈ l, x ≤ b := by
  induction l with
  | nil => intro x hx; cases hx
  | cons c t ih =>
    intro x hx
    cases t with
    | nil =>
      rw [List.getLast?_singleton, Option.some.injEq] at hb
      rw [List.mem_singleton.mp hx, hb]
    | cons d u =>
      rw [List.getLast?_cons_cons] at hb
      rcases List.mem_cons.mp hx with h | h
      · subst h
        obtain ⟨hne, hEq⟩ := List.mem_getLast?_eq_getLast (Option.mem_def.mpr hb)
        have hbmem : b ∈ d :: u := hEq ▸ List.getLast_mem hne
        exact (List.pairwise_cons.mp hp).1 b hbmem
      · exact ih (List.pairwise_cons.mp hp).2 hb x h

/-- Helper: a `≤`-chain whose first and last elements are both `a` is
constant. -/
theorem chain_le_const (l : List ℝ) (a : ℝ) (hc : List.Chain' (· ≤ ·) l)
    (h1 : l.head? = some a) (h2 : l.getLast? = some a) : ∀ x ∈ l, x = a := by
  have hp := List.chain'_iff_pairwise.mp hc
  cases l with
  | nil => intro x hx; cases hx
  | cons c t =>
    have hca : c = a := by simpa using h1
    intro x hx
    have hub := le_getLast?_of_pairwise (c :: t) a hp h2 x hx
    rcases List.mem_cons.mp hx with h | h
    · rw [h, hca]
    · have hlb : c ≤ x := (List.pairwise_cons.mp hp).1 x h
      exact le_antisymm hub (hca ▸ hlb)

/-- Helper: the fixture solver `wsol` satisfies the solver contract. -/
theorem wsol_ok : SolverOk wsol := by
  intro f span y0 ev ms method rt atol
  refine ⟨?_, rfl, ?_, ?_, ?_, ?_⟩
  · show List.Chain' (· ≤ ·) [span.1, span.1]
    simp
  · show 2 ≤ ([span.1, span.1] : List ℝ).length
    simp
  · show (y0.map fun v => [v, v]).length = y0.length
    simp
  · intro ch hch
    obtain ⟨v, _, rfl⟩ := List.mem_map.mp hch
    rfl
  · intro te hte
    have h : span.1 = te := by simpa [wsol] using hte
    rw [← h]
    rfl

/-- Helper: the fixture solver `wsolNoEvent` satisfies the solver contract. -/
theorem wsolNoEvent_ok : SolverOk wsolNoEvent := by
  intro f span y0 ev ms method rt atol
  refine ⟨?_, rfl, ?_, ?_, ?_, ?_⟩
  · show List.Chain' (· ≤ ·) [span.1, span.1]
    simp
  · show 2 ≤ ([span.1, span.1] : List ℝ).length
    simp
  · show (y0.map fun v => [v, v]).length = y0.length
    simp
  · intro ch hch
    obtain ⟨v, _, rfl⟩ := List.mem_map.mp hch
    rfl
  · intro te hte
    cases hte

/-- Helper: the fixture solver `wsol` reports an immediate event at the span
start on every call. -/
theorem wsol_event_immediate : EventImmediate wsol :=
  fun _ _ _ _ _ _ _ _ _ => rfl

/- ## Theorems for claim C6 -/

/-- C6: for every parameter set with `water_fraction = 0` the initial water
mass is zero, so the water-depletion event function is already zero at the
water phase's initial state; under the documented solver event semantics
(`EventImmediate`) the water phase terminates immediately: every reported
water-phase time point equals the start time 0 and the returned
`water_depletion_time` is 0, the trajectory continuing with the air and
coasting phases only. -/
theorem simulate_zero_water_fraction (solve : Solver)
    (validate : RocketParams → List String) (eng : PhysicsEngine) (p : RocketParams)
    (mt ts : ℝ) (method : String) (buf0 : List DerivedSample)
    (hok : SolverOk solve) (hev : EventImmediate solve)
    (hwf : p.water_fraction = 0) :
    water_depletion_event 0 (initialStateWater p) = 0 ∧
      (∀ x ∈ (waterSolution solve eng p mt ts method).t, x = 0) ∧
      (simulate solve validate eng p (some ⟨some mt, some ts, some method⟩)
          buf0).1.water_depletion_time = 0 := by
  have hini : water_depletion_event 0 (initialStateWater p) = 0 := by
    simp [water_depletion_event, initialStateWater, hwf]
  have hhead : (waterSolution solve eng p mt ts method).tEvents.head? = some 0 :=
    hev (rocket_ode_water_phase eng p) (0, mt) (initialStateWater p)
      water_depletion_event ts method 1e-8 1e-10 hini
  have hsol : SolOk 0 4 (waterSolution solve eng p mt ts method) :=
    hok (rocket_ode_water_phase eng p) (0, mt) (initialStateWater p)
      (some water_depletion_event) ts method 1e-8 1e-10
  have hlast : (waterSolution solve eng p mt ts method).t.getLast? = some 0 :=
    hsol.eventLast 0 hhead
  refine ⟨hini, chain_le_const _ 0 hsol.chain hsol.headEq hlast, ?_⟩
  cases hE : (waterSolution solve eng p mt ts method).tEvents with
  | nil => rw [hE] at hhead; cases hhead
  | cons tw rest =>
    have htw : tw = 0 := by
      rw [hE] at hhead
      simpa using hhead
    show (assembleFlightData
        (collectPhases solve eng p mt ts method)).water_depletion_time = 0
    cases hE2 : (airSolution solve eng p mt ts method tw
        (airInitialState p (waterSolution solve eng p mt ts method))).tEvents with
    | nil =>
      simp only [collectPhases, assembleFlightData, hE, hE2]
      exact htw
    | cons ta rest2 =>
      simp only [collectPhases, assembleFlightData, hE, hE2]
      exact htw

/-- C6 witness: the theorem applied to the fixture solver and a parameter
record with zero water fraction. -/
theorem simulate_zero_water_fraction_witness :
    water_depletion_event 0 (initialStateWater pExZeroWater) = 0 ∧
      (∀ x ∈ (waterSolution wsol engDefault pExZeroWater 10 0.01 "RK45").t, x = 0) ∧
      (simulate wsol (fun _ => []) engDefault pExZeroWater
          (some ⟨some 10, some 0.01, some "RK45"⟩) []).1.water_depletion_time = 0 :=
  simulate_zero_water_fraction wsol (fun _ => []) engDefault pExZeroWater 10 0.01 "RK45"
    [] wsol_ok wsol_event_immediate rfl

/- ## Helper lemmas for the sequence-alignment claim -/

/-- Helper: the head of an append whose first part has a head. -/
theorem head?_append_of_head? (l m : List ℝ) (a : ℝ) (h : l.head? = some a) :
    (l ++ m).head? = some a := by
  cases l with
  | nil => cases h
  | cons b t => simpa using h

/-- Helper: extract an equality from membership in an option. -/
theorem eq_of_mem_option (x a : ℝ) (o : Option ℝ) (hx : x ∈ o) (h : o = some a) :
    x = a := by
  rw [h] at hx
  exact (Option.some.inj (Option.mem_def.mp hx)).symm

/-- Helper: channel lengths of a well-shaped solution. -/
theorem ylen_getD (s : IVPSolution) (n i : ℕ) (hdim : s.y.length = n) (hi : i < n)
    (hl : ∀ ch ∈ s.y, ch.length = s.t.length) :
    (s.y.getD i []).length = s.t.length := by
  have hlt : i < s.y.length := by omega
  rw [List.getD_eq_getElem _ _ hlt]
  exact hl _ (List.getElem_mem hlt)

/-- Helper: `npGradient` preserves the length of its first argument. -/
theorem npGradient_length (ys xs : List ℝ) : (npGradient ys xs).length = ys.length := by
  simp [npGradient]

/-- Helper: alignment of a one-segment (water-phase only) trajectory. -/
theorem seg_ok_one (sW : IVPSolution) (am : ℝ) (hW : SolOk 0 4 sW) :
    List.Chain' (· ≤ ·) sW.t ∧ 2 ≤ sW.t.length ∧
      (sW.y.getD 0 []).length = sW.t.length ∧
      (sW.y.getD 1 []).length = sW.t.length ∧
      (sW.y.getD 2 []).length = sW.t.length ∧
      (sW.y.getD 3 []).length = sW.t.length ∧
      (sW.t.map fun _ => am).length = sW.t.length :=
  ⟨hW.chain, hW.twoLe,
   ylen_getD sW 4 0 hW.ydim (by norm_num) hW.ylen,
   ylen_getD sW 4 1 hW.ydim (by norm_num) hW.ylen,
   ylen_getD sW 4 2 hW.ydim (by norm_num) hW.ylen,
   ylen_getD sW 4 3 hW.ydim (by norm_num) hW.ylen,
   List.length_map sW.t _⟩

/-- Helper: alignment of a two-segment (water and air) trajectory. -/
theorem seg_ok_two (sW sA : IVPSolution) (tw am : ℝ)
    (hW : SolOk 0 4 sW) (hA : SolOk tw 4 sA)
    (hlastW : sW.t.getLast? = some tw) :
    List.Chain' (· ≤ ·) (sW.t ++ sA.t) ∧ 2 ≤ (sW.t ++ sA.t).length ∧
      (sW.y.getD 0 [] ++ sA.y.getD 0 []).length = (sW.t ++ sA.t).length ∧
      (sW.y.getD 1 [] ++ sA.y.getD 1 []).length = (sW.t ++ sA.t).length ∧
      (sW.y.getD 2 [] ++ sA.t.map fun _ => (0:ℝ)).length = (sW.t ++ sA.t).length ∧
      (sW.y.getD 3 [] ++ sA.t.map fun _ => (0:ℝ)).length = (sW.t ++ sA.t).length ∧
      ((sW.t.map fun _ => am) ++ sA.y.getD 2 []).length = (sW.t ++ sA.t).length := by
  have lW0 := ylen_getD sW 4 0 hW.ydim (by norm_num) hW.ylen
  have lW1 := ylen_getD sW 4 1 hW.ydim (by norm_num) hW.ylen
  have lW2 := ylen_getD sW 4 2 hW.ydim (by norm_num) hW.ylen
  have lW3 := ylen_getD sW 4 3 hW.ydim (by norm_num) hW.ylen
  have lA0 := ylen_getD sA 4 0 hA.ydim (by norm_num) hA.ylen
  have lA1 := ylen_getD sA 4 1 hA.ydim (by norm_num) hA.ylen
  have lA2 := ylen_getD sA 4 2 hA.ydim (by norm_num) hA.ylen
  refine ⟨?_, ?_, ?_, ?_, ?_, ?_, ?_⟩
  · refine List.chain'_append.mpr ⟨hW.chain, hA.chain, ?_⟩
    intro x hx y hy
    rw [eq_of_mem_option x tw _ hx hlastW, eq_of_mem_option y tw _ hy hA.headEq]
  · have := hW.twoLe
    rw [List.length_append]
    omega
  · simp only [List.length_append, List.length_map]
    rw [lW0, lA0]
  · simp only [List.length_append, List.length_map]
    rw [lW1, lA1]
  · simp only [List.length_append, List.length_map]
    rw [lW2]
  · simp only [List.length_append, List.length_map]
    rw [lW3]
  · simp only [List.length_append, List.length_map]
    rw [lA2]

/-- Helper: alignment of a three-segment (water, air, coasting) trajectory. -/
theorem seg_ok_three (sW sA sC : IVPSolution) (tw ta am : ℝ)
    (hW : SolOk 0 4 sW) (hA : SolOk tw 4 sA) (hC : SolOk ta 2 sC)
    (hlastW : sW.t.getLast? = some tw) (hlastA : sA.t.getLast? = some ta) :
    List.Chain' (· ≤ ·) (sW.t ++ (sA.t ++ sC.t)) ∧ 2 ≤ (sW.t ++ (sA.t ++ sC.t)).length ∧
      (sW.y.getD 0 [] ++ (sA.y.getD 0 [] ++ sC.y.getD 0 [])).length =
        (sW.t ++ (sA.t ++ sC.t)).length ∧
      (sW.y.getD 1 [] ++ (sA.y.getD 1 [] ++ sC.y.getD 1 [])).length =
        (sW.t ++ (sA.t ++ sC.t)).length ∧
      (sW.y.getD 2 [] ++ ((sA.t.map fun _ => (0:ℝ)) ++ sC.t.map fun _ => (0:ℝ))).length =
        (sW.t ++ (sA.t ++ sC.t)).length ∧
      (sW.y.getD 3 [] ++ ((sA.t.map fun _ => (0:ℝ)) ++ sC.t.map fun _ => (0:ℝ))).length =
        (sW.t ++ (sA.t ++ sC.t)).length ∧
      ((sW.t.map fun _ => am) ++ (sA.y.getD 2 [] ++ sC.t.map fun _ => (0:ℝ))).length =
        (sW.t ++ (sA.t ++ sC.t)).length := by
  have lW0 := ylen_getD sW 4 0 hW.ydim (by norm_num) hW.ylen
  have lW1 := ylen_getD sW 4 1 hW.ydim (by norm_num) hW.ylen
  have lW2 := ylen_getD sW 4 2 hW.ydim (by norm_num) hW.ylen
  have lW3 := ylen_getD sW 4 3 hW.ydim (by norm_num) hW.ylen
  have lA0 := ylen_getD sA 4 0 hA.ydim (by norm_num) hA.ylen
  have lA1 := ylen_getD sA 4 1 hA.ydim (by norm_num) hA.ylen
  have lA2 := ylen_getD sA 4 2 hA.ydim (by norm_num) hA.ylen
  have lC0 := ylen_getD sC 2 0 hC.ydim (by norm_num) hC.ylen
  have lC1 := ylen_getD sC 2 1 hC.ydim (by norm_num) hC.ylen
  refine ⟨?_, ?_, ?_, ?_, ?_, ?_, ?_⟩
  · refine List.chain'_append.mpr
      ⟨hW.chain, List.chain'_append.mpr ⟨hA.chain, hC.chain, ?_⟩, ?_⟩
    · intro x hx y hy
      rw [eq_of_mem_option x ta _ hx hlastA, eq_of_mem_option y ta _ hy hC.headEq]
    · intro x hx y hy
      have h3 : (sA.t ++ sC.t).head? = some tw :=
        head?_append_of_head? _ _ tw hA.headEq
      rw [eq_of_mem_option x tw _ hx hlastW, eq_of_mem_option y tw _ hy h3]
  · have := hW.twoLe
    rw [List.length_append]
    omega
  · simp only [List.length_append, List.length_map]
    rw [lW0, lA0, lC0]
  · simp only [List.length_append, List.length_map]
    rw [lW1, lA1, lC1]
  · simp only [List.length_append, List.length_map]
    rw [lW2]
  · simp only [List.length_append, List.length_map]
    rw [lW3]
  · simp only [List.length_append, List.length_map]
    rw [lA2]

/-- Helper: the phase segments produced by `collectPhases` concatenate to a
non-decreasing time grid of length at least 2, with every state channel as long
as the grid. -/
theorem collectPhases_ok (solve : Solver) (eng : PhysicsEngine) (p : RocketParams)
    (mt ts : ℝ) (mth : String) (hok : SolverOk solve) :
    List.Chain' (· ≤ ·) (collectPhases solve eng p mt ts mth).segTimes.flatten ∧
      2 ≤ (collectPhases solve eng p mt ts mth).segTimes.flatten.length ∧
      (collectPhases solve eng p mt ts mth).segAlts.flatten.length =
        (collectPhases solve eng p mt ts mth).segTimes.flatten.length ∧
      (collectPhases solve eng p mt ts mth).segVels.flatten.length =
        (collectPhases solve eng p mt ts mth).segTimes.flatten.length ∧
      (collectPhases solve eng p mt ts mth).segWaters.flatten.length =
        (collectPhases solve eng p mt ts mth).segTimes.flatten.length ∧
      (collectPhases solve eng p mt ts mth).segLgs.flatten.length =
        (collectPhases solve eng p mt ts mth).segTimes.flatten.length ∧
      (collectPhases solve eng p mt ts mth).segAirs.flatten.length =
        (collectPhases solve eng p mt ts mth).segTimes.flatten.length := by
  have hW : SolOk 0 4 (waterSolution solve eng p mt ts mth) :=
    hok (rocket_ode_water_phase eng p) (0, mt) (initialStateWater p)
      (some water_depletion_event) ts mth 1e-8 1e-10
  cases hE : (waterSolution solve eng p mt ts mth).tEvents with
  | nil =>
    simp only [collectPhases, hE, List.flatten_cons, List.flatten_nil, List.append_nil]
    exact seg_ok_one _ _ hW
  | cons tw rest =>
    have hA : SolOk tw 4 (airSolution solve eng p mt ts mth tw
        (airInitialState p (waterSolution solve eng p mt ts mth))) :=
      hok (rocket_ode_air_phase eng p) (tw, mt)
        (airInitialState p (waterSolution solve eng p mt ts mth))
        (some (air_depletion_event p)) ts mth 1e-8 1e-10
    have hlastW : (waterSolution solve eng p mt ts mth).t.getLast? = some tw :=
      hW.eventLast tw (by rw [hE]; rfl)
    cases hE2 : (airSolution solve eng p mt ts mth tw
        (airInitialState p (waterSolution solve eng p mt ts mth))).tEvents with
    | nil =>
      simp only [collectPhases, hE, hE2, List.flatten_cons, List.flatten_nil,
        List.append_nil]
      exact seg_ok_two _ _ _ _ hW hA hlastW
    | cons ta rest2 =>
      have hlastA : (airSolution solve eng p mt ts mth tw
          (airInitialState p (waterSolution solve eng p mt ts mth))).t.getLast? =
            some ta :=
        hA.eventLast ta (by rw [hE2]; rfl)
      have hC : SolOk ta 2 (coastingSolution solve eng p mt ts mth ta
          [((airSolution solve eng p mt ts mth tw (airInitialState p
              (waterSolution solve eng p mt ts mth))).y.map
                fun ch => ch.getLastD 0).getD 0 0,
           ((airSolution solve eng p mt ts mth tw (airInitialState p
              (waterSolution solve eng p mt ts mth))).y.map
                fun ch => ch.getLastD 0).getD 1 0]) :=
        hok (rocket_ode_coasting_phase eng p) (ta, mt)
          [((airSolution solve eng p mt ts mth tw (airInitialState p
              (waterSolution solve eng p mt ts mth))).y.map
                fun ch : List ℝ => ch.getLastD 0).getD 0 0,
           ((airSolution solve eng p mt ts mth tw (airInitialState p
              (waterSolution solve eng p mt ts mth))).y.map
                fun ch : List ℝ => ch.getLastD 0).getD 1 0]
          none ts mth 1e-8 1e-10
      simp only [collectPhases, hE, hE2, List.flatten_cons, List.flatten_nil,
        List.append_nil]
      exact seg_ok_three _ _ _ _ _ _ hW hA hC hlastW hlastA

/- ## Theorems for claim C5 -/

/-- C5: under the documented solver behaviour (`SolverOk`), the `FlightData`
returned by `simulate` has a non-decreasing time sequence of length greater
than 1, and all eleven sequences (time, altitude, velocity, acceleration,
water_mass, liquid_gas_mass, air_mass, pressure, temperature, thrust, drag)
have equal length, co-indexed on the same time grid. -/
theorem simulate_sequences_aligned (solve : Solver)
    (validate : RocketParams → List String) (eng : PhysicsEngine) (p : RocketParams)
    (sp : Option SimParams) (buf0 : List DerivedSample) (hok : SolverOk solve) :
    List.Chain' (· ≤ ·) (simulate solve validate eng p sp buf0).1.time ∧
      1 < (simulate solve validate eng p sp buf0).1.time.length ∧
      (simulate solve validate eng p sp buf0).1.altitude.length =
        (simulate solve validate eng p sp buf0).1.time.length ∧
      (simulate solve validate eng p sp buf0).1.velocity.length =
        (simulate solve validate eng p sp buf0).1.time.length ∧
      (simulate solve validate eng p sp buf0).1.acceleration.length =
        (simulate solve validate eng p sp buf0).1.time.length ∧
      (simulate solve validate eng p sp buf0).1.water_mass.length =
        (simulate solve validate eng p sp buf0).1.time.length ∧
      (simulate solve validate eng p sp buf0).1.liquid_gas_mass.length =
        (simulate solve validate eng p sp buf0).1.time.length ∧
      (simulate solve validate eng p sp buf0).1.air_mass.length =
        (simulate solve validate eng p sp buf0).1.time.length ∧
      (simulate solve validate eng p sp buf0).1.pressure.length =
        (simulate solve validate eng p sp buf0).1.time.length ∧
      (simulate solve validate eng p sp buf0).1.temperature.length =
        (simulate solve validate eng p sp buf0).1.time.length ∧
      (simulate solve validate eng p sp buf0).1.thrust.length =
        (simulate solve validate eng p sp buf0).1.time.length ∧
      (simulate solve validate eng p sp buf0).1.drag.length =
        (simulate solve validate eng p sp buf0).1.time.length := by
  obtain ⟨h1, h2, h3, h4, h5, h6, h7⟩ := collectPhases_ok solve eng p
    ((sp.getD ⟨none, none, none⟩).max_time.getD DEFAULT_MAX_TIME)
    ((sp.getD ⟨none, none, none⟩).time_step.getD DEFAULT_TIME_STEP)
    ((sp.getD ⟨none, none, none⟩).solver.getD DEFAULT_SOLVER) hok
  have h2' : 2 ≤ (simulate solve validate eng p sp buf0).1.time.length := h2
  have hacc : (simulate solve validate eng p sp buf0).1.acceleration.length =
      (simulate solve validate eng p sp buf0).1.velocity.length :=
    npGradient_length _ _
  refine ⟨h1, by omega, h3, h4, hacc.trans h4, h5, h6, h7, ?_, ?_, ?_, ?_⟩
  · exact List.length_map _ _
  · exact List.length_map _ _
  · exact List.length_map _ _
  · exact List.length_map _ _

/-- C5 witness: the theorem applied to a concrete solver satisfying the solver
contract, projecting the monotonicity and length conjuncts. -/
theorem simulate_sequences_aligned_witness :
    List.Chain' (· ≤ ·)
        (simulate wsolNoEvent (fun _ => []) engDefault pEx none []).1.time ∧
      1 < (simulate wsolNoEvent (fun _ => []) engDefault pEx none []).1.time.length :=
  ⟨(simulate_sequences_aligned wsolNoEvent (fun _ => []) engDefault pEx none []
      wsolNoEvent_ok).1,
   (simulate_sequences_aligned wsolNoEvent (fun _ => []) engDefault pEx none []
      wsolNoEvent_ok).2.1⟩
